import Mathlib

/-!
Shallow embedding of the Pumplotto backend (src/server.js): a small Express
server over four Mongo collections (Admin, PresaleEnd, ProgressBar,
WalletAddress), a lazy connection flag, a JWT bearer guard, and a handful of
route handlers.  Collections are modelled as lists in insertion order:
`findOne()` with no sort is the first inserted element (`head?`), a create
appends at the end, and `findOne().sort(\x7bcreatedAt: -1\x7d)` is the most
recently created element (`getLast?`).  JavaScript numbers, where the clamp
logic needs them, are modelled as `JsNum` (either NaN or a rational), and the
results of `bcrypt.hash`, `bcrypt.compare` and `jwt.verify` are abstract
parameters of the functions that call them.
-/

/-- A JavaScript number as the progress-bar clamp sees it: NaN or a rational. -/
inductive JsNum where
  | nan : JsNum
  | num : Rat → JsNum
deriving DecidableEq

/-- `Math.min`: NaN-propagating minimum. -/
def jsMin : JsNum → JsNum → JsNum
  | JsNum.nan, _ => JsNum.nan
  | JsNum.num _, JsNum.nan => JsNum.nan
  | JsNum.num a, JsNum.num b => JsNum.num (min a b)

/-- `Math.max`: NaN-propagating maximum. -/
def jsMax : JsNum → JsNum → JsNum
  | JsNum.nan, _ => JsNum.nan
  | JsNum.num _, JsNum.nan => JsNum.nan
  | JsNum.num a, JsNum.num b => JsNum.num (max a b)

/-- `Math.max(0, Math.min(Number(value), 100))` from the progress-bar POST
handler (server.js line 197), applied to the already-parsed value. -/
def clampProgress (v : JsNum) : JsNum :=
  jsMax (JsNum.num 0) (jsMin v (JsNum.num 100))

/-- Whether a stored value is a number lying in [0, 100]. -/
def inProgressRange : JsNum → Bool
  | JsNum.nan => false
  | JsNum.num q => decide (0 ≤ q) && decide (q ≤ 100)

/-- One document of the Admin collection (adminSchema, server.js lines 46-49):
`password` holds the bcrypt hash. -/
structure AdminRecord where
  password : String
  initialized : Bool
deriving DecidableEq

/-- The four collections of the store, each as a list in insertion order. -/
structure Store where
  admins : List AdminRecord
  presaleEnds : List Int
  progressBars : List JsNum
  wallets : List String
deriving DecidableEq

/-- A response body: plain text (`res.send`), a `\x7bmessage\x7d` JSON object,
a `\x7btoken\x7d` object, a bare record, or a `\x7bmessage, data\x7d` object. -/
inductive Body where
  | text (s : String)
  | message (s : String)
  | token (t : String)
  | presaleRecord (d : Int)
  | progressRecord (v : JsNum)
  | walletRecord (a : String)
  | msgData (msg : String) (data : Body)
deriving DecidableEq

/-- An HTTP response: status code and body (`res.json` defaults to 200). -/
structure Response where
  status : Nat
  body : Body
deriving DecidableEq

/-- Outcome of `connectDB()` (server.js lines 15-24).  `connected` is the new
value of the module-level `isConnected` flag, `dialed` records whether
`mongoose.connect` was called, and `ok` whether the call returned without
throwing (a failed dial rejects before `isConnected = true` runs). -/
structure ConnResult where
  connected : Bool
  dialed : Bool
  ok : Bool
deriving DecidableEq

/-- `connectDB()` as a function of whether the dial would succeed and of the
current `isConnected` flag. -/
def connectDB (attemptSucceeds : Bool) (isConnected : Bool) : ConnResult :=
  if isConnected then ConnResult.mk true false true
  else if attemptSucceeds then ConnResult.mk true true true
  else ConnResult.mk false true false

/-- The environment variables the admin flow reads; `none` means unset. -/
structure Env where
  adminPassword : Option String
deriving DecidableEq

/-- `existingAdmin && existingAdmin.initialized` (server.js line 79):
JavaScript truthiness of the found document and of its flag. -/
def adminIsInit : Option AdminRecord → Bool
  | some a => a.initialized
  | none => false

/-- `!adminPassword || adminPassword.length < 8` (server.js line 82), negated:
the configured secret is present and at least 8 characters.  (An unset
variable is falsy; the empty string is also falsy and has length 0 < 8, so the
two JavaScript disjuncts collapse to this one test.) -/
def secretOk : Option String → Bool
  | none => false
  | some pw => decide (8 ≤ pw.length)

/-- The message logged by `console.error` when the secret check fails. -/
def adminPwLog : String := "ADMIN_PASSWORD must be set and at least 8 characters."

/-- Result of `initializeAdmin()`: the new Admin collection and the error
message logged, if any.  The function itself always returns normally. -/
structure InitAdminResult where
  admins : List AdminRecord
  log : Option String
deriving DecidableEq

/-- `initializeAdmin()` (server.js lines 74-99).  `hashedPassword` stands for
the fresh salted output of `bcrypt.hash(adminPassword, 10)`. -/
def initializeAdmin (env : Env) (hashedPassword : String) (admins : List AdminRecord) : InitAdminResult :=
  let existingAdmin := admins.head?
  if adminIsInit existingAdmin then
    InitAdminResult.mk admins none
  else if secretOk env.adminPassword = false then
    InitAdminResult.mk admins (some adminPwLog)
  else
    match existingAdmin with
    | some _ => InitAdminResult.mk (AdminRecord.mk hashedPassword true :: admins.tail) none
    | none => InitAdminResult.mk (admins ++ [AdminRecord.mk hashedPassword true]) none

/-- `GET /api/init-admin` (server.js lines 269-272): run `initializeAdmin`,
then unconditionally `res.send` a plain-text acknowledgment. -/
def initAdminRoute (env : Env) (hashedPassword : String) (st : Store) : Response × Store × Option String :=
  let r := initializeAdmin env hashedPassword st.admins
  (Response.mk 200 (Body.text "Tried initializing admin"),
   { st with admins := r.admins }, r.log)

/-- JavaScript `String.prototype.split` on a single-character separator,
accumulator-style over the character list. -/
def jsSplitAux (sep : Char) : List Char → List Char → List String
  | [], acc => [String.mk acc.reverse]
  | c :: cs, acc =>
    if c = sep then String.mk acc.reverse :: jsSplitAux sep cs []
    else jsSplitAux sep cs (c :: acc)

/-- `s.split(sep)` for a one-character separator. -/
def jsSplit (s : String) (sep : Char) : List String :=
  jsSplitAux sep s.data []

/-- `req.headers.authorization?.split(' ')[1]` (server.js line 62): the chunk
after the first space, if the header is present and has one. -/
def rawBearerToken (authHeader : Option String) : Option String :=
  authHeader.bind (fun h => (jsSplit h ' ').get? 1)

/-- The extracted bearer token as the guard's truthiness test sees it: the raw
chunk when it exists and is non-empty (`!token` treats the empty chunk, like
an absent one, as missing). -/
def bearerToken (authHeader : Option String) : Option String :=
  match rawBearerToken authHeader with
  | none => none
  | some t => if t = "" then none else some t

/-- What the `authenticateJWT` middleware does with a request: answer it
itself, or let the wrapped handler run. -/
inductive GuardOutcome where
  | respond (status : Nat) (msg : String)
  | proceed
deriving DecidableEq

/-- `authenticateJWT` (server.js lines 61-71).  `verify` stands for
`jwt.verify(token, JWT_SECRET)` succeeding without throwing. -/
def authenticateJWT (verify : String → Bool) (authHeader : Option String) : GuardOutcome :=
  match rawBearerToken authHeader with
  | none => GuardOutcome.respond 401 "Unauthorized"
  | some token =>
    if token = "" then GuardOutcome.respond 401 "Unauthorized"
    else if verify token then GuardOutcome.proceed
    else GuardOutcome.respond 403 "Invalid token"

/-- `GET /api/verify-token` (server.js lines 126-128): the guard, then a fixed
success body. -/
def verifyTokenRoute (verify : String → Bool) (authHeader : Option String) : Response :=
  match authenticateJWT verify authHeader with
  | GuardOutcome.respond s m => Response.mk s (Body.message m)
  | GuardOutcome.proceed => Response.mk 200 (Body.message "Token valid")

/-- Result of `POST /api/authenticate`: the response, the (unchanged) store,
and whether `Admin.findOne()` was reached. -/
structure AuthRouteResult where
  response : Response
  store : Store
  adminLookup : Bool
deriving DecidableEq

/-- `POST /api/authenticate` (server.js lines 102-124).  `compareHash` stands
for `bcrypt.compare`, `signedToken` for the output of `jwt.sign`.  An absent
or empty password is falsy; the empty string also has length 0 < 8, so the
embedded test is the length check alone, as in `secretOk`. -/
def authenticateRoute (compareHash : String → String → Bool) (signedToken : String)
    (password : Option String) (st : Store) : AuthRouteResult :=
  match password with
  | none => AuthRouteResult.mk
      (Response.mk 400 (Body.message "Password must be at least 8 characters")) st false
  | some p =>
    if p.length < 8 then
      AuthRouteResult.mk
        (Response.mk 400 (Body.message "Password must be at least 8 characters")) st false
    else
      match st.admins.head? with
      | none => AuthRouteResult.mk
          (Response.mk 401 (Body.message "Admin account not initialized")) st true
      | some admin =>
        if admin.initialized = false then
          AuthRouteResult.mk
            (Response.mk 401 (Body.message "Admin account not initialized")) st true
        else if compareHash p admin.password then
          AuthRouteResult.mk (Response.mk 200 (Body.token signedToken)) st true
        else
          AuthRouteResult.mk (Response.mk 401 (Body.message "Invalid password")) st true

/-- `POST /api/progress-bar` (server.js lines 187-212): guard, presence check
on `value`, clamp, then update the found record or create one.  The body's
`value` is carried as its `Number(value)` parse (`none` = undefined). -/
def progressBarPost (verify : String → Bool) (authHeader : Option String)
    (value : Option JsNum) (st : Store) : Response × Store :=
  match authenticateJWT verify authHeader with
  | GuardOutcome.respond s m => (Response.mk s (Body.message m), st)
  | GuardOutcome.proceed =>
    match value with
    | none => (Response.mk 400 (Body.message "value is required"), st)
    | some v0 =>
      let v := clampProgress v0
      match st.progressBars with
      | _ :: rest =>
        (Response.mk 200 (Body.msgData "Progress bar value saved" (Body.progressRecord v)),
         { st with progressBars := v :: rest })
      | [] =>
        (Response.mk 200 (Body.msgData "Progress bar value saved" (Body.progressRecord v)),
         { st with progressBars := [v] })

/-- `GET /api/progress-bar` (server.js lines 216-225): newest record, else a
placeholder message. -/
def progressBarGet (st : Store) : Response :=
  match st.progressBars.getLast? with
  | some v => Response.mk 200 (Body.progressRecord v)
  | none => Response.mk 200 (Body.message "No progress bar value set yet")

/-- `GET /api/presale-end` (server.js lines 153-162): newest record, else a
placeholder message. -/
def presaleEndGet (st : Store) : Response :=
  match st.presaleEnds.getLast? with
  | some d => Response.mk 200 (Body.presaleRecord d)
  | none => Response.mk 200 (Body.message "No presale end date set yet")

/-- JavaScript `address.toLowerCase()`: lowercase every character. -/
def jsToLower (s : String) : String := String.mk (s.data.map Char.toLower)

/-- `POST /api/wallet-address` (server.js lines 229-251): presence check,
lowercase, duplicate check via `findOne(\x7baddress: lowerAddr\x7d)`, then
create.  An empty address is falsy and rejected like an absent one. -/
def walletAddressPost (address : Option String) (st : Store) : Response × Store :=
  match address with
  | none => (Response.mk 400 (Body.message "Address is required"), st)
  | some a =>
    if a = "" then (Response.mk 400 (Body.message "Address is required"), st)
    else
      let lowerAddr := jsToLower a
      if lowerAddr ∈ st.wallets then
        (Response.mk 409 (Body.msgData "Address already exists" (Body.walletRecord lowerAddr)), st)
      else
        (Response.mk 200 (Body.msgData "Wallet address saved" (Body.walletRecord lowerAddr)),
         { st with wallets := st.wallets ++ [lowerAddr] })

/-- C6: once the `isConnected` flag is true, `connectDB` returns at once
without re-dialing; a failed dial throws before the flag assignment, so the
flag stays false and the next call dials again. -/
theorem connectDB_idempotent_retry (a1 a2 : Bool) :
    connectDB a1 true = ConnResult.mk true false true ∧
    (connectDB false false).connected = false ∧
    (connectDB false false).ok = false ∧
    (connectDB a2 (connectDB false false).connected).dialed = true := by
  cases a1 <;> cases a2 <;> decide

/-- C7: with no record of the singleton kind stored, the presale-end and
progress-bar GET handlers answer 200 with the documented placeholder
message, not an error status. -/
theorem singleton_get_placeholder (st : Store)
    (hp : st.presaleEnds = []) (hb : st.progressBars = []) :
    presaleEndGet st = Response.mk 200 (Body.message "No presale end date set yet") ∧
    progressBarGet st = Response.mk 200 (Body.message "No progress bar value set yet") := by
  constructor
  · simp [presaleEndGet, hp]
  · simp [progressBarGet, hb]

theorem singleton_get_placeholder_witness :
    presaleEndGet (Store.mk [] [] [] []) = Response.mk 200 (Body.message "No presale end date set yet") ∧
    progressBarGet (Store.mk [] [] [] []) = Response.mk 200 (Body.message "No progress bar value set yet") :=
  singleton_get_placeholder (Store.mk [] [] [] []) rfl rfl

/-- C2: GET /api/init-admin answers 200 with the plain-text acknowledgment
for every environment and store; when the configured secret is absent or
shorter than 8 characters the store is unchanged and — whenever the
bootstrap is not short-circuited by an already-initialized admin — the
failure is only logged, never surfaced as an error response. -/
theorem initAdminRoute_always_ok (env : Env) (hashedPassword : String) (st : Store) :
    (initAdminRoute env hashedPassword st).1 =
      Response.mk 200 (Body.text "Tried initializing admin") ∧
    (secretOk env.adminPassword = false →
      (initAdminRoute env hashedPassword st).2.1 = st ∧
      (adminIsInit st.admins.head? = false →
        (initAdminRoute env hashedPassword st).2.2 = some adminPwLog)) := by
  refine ⟨rfl, fun hsec => ⟨?_, fun hinit => ?_⟩⟩
  · rw [initAdminRoute]
    cases h : adminIsInit st.admins.head? <;> simp [initializeAdmin, h, hsec]
  · rw [initAdminRoute]
    simp [initializeAdmin, hinit, hsec]

theorem initAdminRoute_always_ok_witness :
    (initAdminRoute (Env.mk none) "H" (Store.mk [] [] [] [])).2.2 = some adminPwLog :=
  (((initAdminRoute_always_ok (Env.mk none) "H" (Store.mk [] [] [] [])).2) rfl).2 rfl

/-- C3: a password that is absent or shorter than 8 characters makes
POST /api/authenticate answer 400 without reaching `Admin.findOne()`, and
leaves the store untouched. -/
theorem authenticateRoute_short_password (compareHash : String → String → Bool)
    (signedToken : String) (password : Option String) (st : Store)
    (h : password = none ∨ ∃ p, password = some p ∧ p.length < 8) :
    (authenticateRoute compareHash signedToken password st).response.status = 400 ∧
    (authenticateRoute compareHash signedToken password st).store = st ∧
    (authenticateRoute compareHash signedToken password st).adminLookup = false := by
  rcases h with h | ⟨p, hp, hlen⟩
  · subst h; exact ⟨rfl, rfl, rfl⟩
  · subst hp
    simp [authenticateRoute, hlen]

theorem authenticateRoute_short_password_witness :
    (authenticateRoute (fun _ _ => true) "tok" (some "short") (Store.mk [] [] [] [])).response.status = 400 ∧
    (authenticateRoute (fun _ _ => true) "tok" (some "short") (Store.mk [] [] [] [])).store = Store.mk [] [] [] [] ∧
    (authenticateRoute (fun _ _ => true) "tok" (some "short") (Store.mk [] [] [] [])).adminLookup = false :=
  authenticateRoute_short_password (fun _ _ => true) "tok" (some "short") (Store.mk [] [] [] [])
    (Or.inr ⟨"short", rfl, by decide⟩)

/-- Splitting on a separator character that does not occur in the remaining
input returns the single chunk made of the accumulator and that input. -/
theorem jsSplitAux_no_sep (sep : Char) (cs : List Char) :
    ∀ acc, sep ∉ cs → jsSplitAux sep cs acc = [String.mk (acc.reverse ++ cs)] := by
  induction cs with
  | nil => intro acc _; simp [jsSplitAux]
  | cons c cs ih =>
    intro acc h
    have hc : ¬(c = sep) := by rintro rfl; exact h (List.mem_cons_self _ _)
    have h' : sep ∉ cs := fun hm => h (List.mem_cons_of_mem _ hm)
    rw [jsSplitAux, if_neg hc, ih (c :: acc) h']
    simp

/-- C9: an authorization header with no space character yields an undefined
`split(' ')[1]`, so the guard answers 401 — never 403 — even when the full
header value would verify as a token. -/
theorem authenticateJWT_no_space (verify : String → Bool) (hdr : String)
    (hns : ' ' ∉ hdr.data) (hv : verify hdr = true) :
    rawBearerToken (some hdr) = none ∧
    authenticateJWT verify (some hdr) = GuardOutcome.respond 401 "Unauthorized" := by
  have hmk : String.mk hdr.data = hdr := by cases hdr; rfl
  have hsplit : jsSplit hdr ' ' = [hdr] := by
    rw [jsSplit, jsSplitAux_no_sep ' ' hdr.data [] hns]
    simp [hmk]
  have hraw : rawBearerToken (some hdr) = none := by
    simp [rawBearerToken, hsplit]
  refine ⟨hraw, ?_⟩
  rw [authenticateJWT, hraw]

theorem authenticateJWT_no_space_witness :
    rawBearerToken (some "validtoken") = none ∧
    authenticateJWT (fun _ => true) (some "validtoken") = GuardOutcome.respond 401 "Unauthorized" :=
  authenticateJWT_no_space (fun _ => true) "validtoken" (by decide) rfl

/-- C8: the guard answers 401 when no (truthy) bearer token can be extracted
from the authorization header, 403 when a token is extracted but fails
verification, and lets the wrapped handler run exactly when verification
succeeds — stated on the guard outcome and on the verify-token route. -/
theorem authenticateJWT_guard (verify : String → Bool) (authHeader : Option String) :
    (bearerToken authHeader = none →
      authenticateJWT verify authHeader = GuardOutcome.respond 401 "Unauthorized" ∧
      verifyTokenRoute verify authHeader = Response.mk 401 (Body.message "Unauthorized")) ∧
    (∀ t, bearerToken authHeader = some t → verify t = false →
      authenticateJWT verify authHeader = GuardOutcome.respond 403 "Invalid token" ∧
      verifyTokenRoute verify authHeader = Response.mk 403 (Body.message "Invalid token")) ∧
    (∀ t, bearerToken authHeader = some t → verify t = true →
      authenticateJWT verify authHeader = GuardOutcome.proceed ∧
      verifyTokenRoute verify authHeader = Response.mk 200 (Body.message "Token valid")) := by
  rcases hraw : rawBearerToken authHeader with _ | t
  · simp [bearerToken, authenticateJWT, verifyTokenRoute, hraw]
  · by_cases he : t = ""
    · subst he
      simp [bearerToken, authenticateJWT, verifyTokenRoute, hraw]
    · cases hv : verify t <;>
        simp [bearerToken, authenticateJWT, verifyTokenRoute, hraw, he, hv]

theorem authenticateJWT_guard_witness :
    authenticateJWT (fun t => t == "good") (some "Bearer good") = GuardOutcome.proceed ∧
    verifyTokenRoute (fun t => t == "good") (some "Bearer good") = Response.mk 200 (Body.message "Token valid") :=
  (authenticateJWT_guard (fun t => t == "good") (some "Bearer good")).2.2 "good" (by decide) (by decide)

/-- C1: the three bootstrap cases of `initializeAdmin`.  An existing record
with `initialized = true` is a no-op (record and hash unchanged, normal
return, nothing logged); an existing uninitialized record has its hash
overwritten with the fresh salted hash and its flag set, when the configured
secret is present with length at least 8; with no record and the same secret
precondition, exactly one record carrying the hash and the flag is created. -/
theorem initializeAdmin_cases (env : Env) (hashedPassword : String) (admins : List AdminRecord) :
    (∀ a, admins.head? = some a → a.initialized = true →
      initializeAdmin env hashedPassword admins = InitAdminResult.mk admins none) ∧
    (∀ a, admins.head? = some a → a.initialized = false → secretOk env.adminPassword = true →
      initializeAdmin env hashedPassword admins =
        InitAdminResult.mk (AdminRecord.mk hashedPassword true :: admins.tail) none) ∧
    (admins.head? = none → secretOk env.adminPassword = true →
      initializeAdmin env hashedPassword admins =
        InitAdminResult.mk [AdminRecord.mk hashedPassword true] none) := by
  refine ⟨?_, ?_, ?_⟩
  · intro a ha hinit
    simp [initializeAdmin, ha, adminIsInit, hinit]
  · intro a ha hinit hsec
    simp [initializeAdmin, ha, adminIsInit, hinit, hsec]
  · intro ha hsec
    cases admins with
    | nil => simp [initializeAdmin, adminIsInit, hsec]
    | cons a rest => simp at ha

theorem initializeAdmin_cases_witness :
    initializeAdmin (Env.mk (some "password123")) "H" [AdminRecord.mk "old" false] =
      InitAdminResult.mk [AdminRecord.mk "H" true] none :=
  (initializeAdmin_cases (Env.mk (some "password123")) "H" [AdminRecord.mk "old" false]).2.1
    (AdminRecord.mk "old" false) rfl rfl (by decide)

/-- C4: on an authenticated progress-bar POST with a defined value, the value
written to the singleton record is `Math.max(0, Math.min(Number(v), 100))`:
numeric parses below 0 store 0, above 100 store 100, within [0,100] store
themselves; in particular -5 stores 0, 150 stores 100 and 42 stores 42. -/
theorem progressBarPost_clamps (verify : String → Bool) (authHeader : Option String)
    (v : JsNum) (st : Store)
    (hauth : authenticateJWT verify authHeader = GuardOutcome.proceed) :
    (progressBarPost verify authHeader (some v) st).2.progressBars.head? = some (clampProgress v) ∧
    (∀ q : Rat, q < 0 → clampProgress (JsNum.num q) = JsNum.num 0) ∧
    (∀ q : Rat, 100 < q → clampProgress (JsNum.num q) = JsNum.num 100) ∧
    (∀ q : Rat, 0 ≤ q → q ≤ 100 → clampProgress (JsNum.num q) = JsNum.num q) ∧
    clampProgress (JsNum.num (-5)) = JsNum.num 0 ∧
    clampProgress (JsNum.num 150) = JsNum.num 100 ∧
    clampProgress (JsNum.num 42) = JsNum.num 42 := by
  refine ⟨?_, ?_, ?_, ?_, by decide, by decide, by decide⟩
  · simp only [progressBarPost, hauth]
    cases hb : st.progressBars with
    | nil => simp
    | cons r rest => simp
  · intro q hq
    have h1 : min q 100 = q := min_eq_left (by linarith)
    have h2 : max (0 : Rat) q = 0 := max_eq_left (by linarith)
    simp [clampProgress, jsMin, jsMax, h1, h2]
  · intro q hq
    have h1 : min q 100 = 100 := min_eq_right (by linarith)
    have h2 : max (0 : Rat) (100 : Rat) = 100 := max_eq_right (by norm_num)
    simp [clampProgress, jsMin, jsMax, h1, h2]
  · intro q hq0 hq1
    have h1 : min q 100 = q := min_eq_left hq1
    have h2 : max (0 : Rat) q = q := max_eq_right hq0
    simp [clampProgress, jsMin, jsMax, h1, h2]

theorem progressBarPost_clamps_witness :
    (progressBarPost (fun _ => true) (some "Bearer tok") (some (JsNum.num 150))
      (Store.mk [] [] [] [])).2.progressBars.head? = some (clampProgress (JsNum.num 150)) :=
  (progressBarPost_clamps (fun _ => true) (some "Bearer tok") (JsNum.num 150)
    (Store.mk [] [] [] []) (by decide)).1

/-- C10: a defined body value whose numeric parse is NaN passes the presence
check, the clamp expression evaluates to NaN, and NaN — not a number in
[0, 100] — is what is handed to the store write; the request is answered
with the 200 save response, not rejected with 400. -/
theorem progressBarPost_nan (verify : String → Bool) (authHeader : Option String) (st : Store)
    (hauth : authenticateJWT verify authHeader = GuardOutcome.proceed) :
    clampProgress JsNum.nan = JsNum.nan ∧
    (progressBarPost verify authHeader (some JsNum.nan) st).2.progressBars.head? = some JsNum.nan ∧
    inProgressRange (clampProgress JsNum.nan) = false ∧
    (progressBarPost verify authHeader (some JsNum.nan) st).1.status = 200 ∧
    (progressBarPost verify authHeader (some JsNum.nan) st).1.status ≠ 400 := by
  have hstat : (progressBarPost verify authHeader (some JsNum.nan) st).1.status = 200 := by
    simp only [progressBarPost, hauth]
    cases hb : st.progressBars with
    | nil => rfl
    | cons r rest => rfl
  have hhead : (progressBarPost verify authHeader (some JsNum.nan) st).2.progressBars.head? =
      some JsNum.nan := by
    simp only [progressBarPost, hauth]
    cases hb : st.progressBars with
    | nil => rfl
    | cons r rest => rfl
  exact ⟨rfl, hhead, rfl, hstat, by rw [hstat]; decide⟩

theorem progressBarPost_nan_witness :
    (progressBarPost (fun _ => true) (some "Bearer tok") (some JsNum.nan)
      (Store.mk [] [] [] [])).2.progressBars.head? = some JsNum.nan :=
  (progressBarPost_nan (fun _ => true) (some "Bearer tok") (Store.mk [] [] [] [])
    (by decide)).2.1

/-- C5: posting an address whose lowercase form is not yet stored creates
exactly one record holding the lowercase form; posting a second address equal
to the first after lowercasing answers 409 and creates nothing, so exactly
one record with the normalized address exists after both requests. -/
theorem walletAddressPost_dedup (a1 a2 : String) (st : Store)
    (h1 : a1 ≠ "") (h2 : a2 ≠ "") (hlow : jsToLower a1 = jsToLower a2)
    (hfresh : jsToLower a1 ∉ st.wallets) :
    (walletAddressPost (some a1) st).1.status = 200 ∧
    (walletAddressPost (some a1) st).2.wallets = st.wallets ++ [jsToLower a1] ∧
    (walletAddressPost (some a2) (walletAddressPost (some a1) st).2).1.status = 409 ∧
    (walletAddressPost (some a2) (walletAddressPost (some a1) st).2).2 =
      (walletAddressPost (some a1) st).2 ∧
    (st.wallets.count (jsToLower a1) = 0 →
      ((walletAddressPost (some a2) (walletAddressPost (some a1) st).2).2.wallets).count
        (jsToLower a1) = 1) := by
  have hr1 : walletAddressPost (some a1) st =
      (Response.mk 200 (Body.msgData "Wallet address saved" (Body.walletRecord (jsToLower a1))),
       { st with wallets := st.wallets ++ [jsToLower a1] }) := by
    simp [walletAddressPost, h1, hfresh]
  have hmem : jsToLower a2 ∈ st.wallets ++ [jsToLower a1] := by
    rw [← hlow]
    exact List.mem_append_right _ (List.mem_singleton.mpr rfl)
  have hr2 : walletAddressPost (some a2)
        ({ st with wallets := st.wallets ++ [jsToLower a1] } : Store) =
      (Response.mk 409 (Body.msgData "Address already exists" (Body.walletRecord (jsToLower a2))),
       { st with wallets := st.wallets ++ [jsToLower a1] }) := by
    simp [walletAddressPost, h2, hmem]
  rw [hr1]
  refine ⟨rfl, rfl, ?_, ?_, ?_⟩
  · rw [hr2]
  · rw [hr2]
  · intro hc0
    rw [hr2]
    simp [List.count_append, hc0]

theorem walletAddressPost_dedup_witness :
    ((walletAddressPost (some "0xabc")
        (walletAddressPost (some "0xABC") (Store.mk [] [] [] [])).2).2.wallets).count
      (jsToLower "0xABC") = 1 :=
  (walletAddressPost_dedup "0xABC" "0xabc" (Store.mk [] [] [] [])
    (by decide) (by decide) (by decide) (by decide)).2.2.2.2 (by decide)
